/-
Verification of the microgrid operation simulation (operation.py):
the rule-based energy dispatch decision and the statistics-accumulation
loop, shallowly embedded over the rationals.
-/
import Mathlib

namespace Microgrids

/-- Energy dispatch decision for the load-following strategy
(`dispatch` in operation.py, lines 97-124).  Given the requested net
load `Pnl_req`, the storage charge bound `Psto_cmax`, the storage
discharge bound `Psto_dmax` and the generator rated power `Pgen_max`,
returns the quadruple `(Pgen, Psto, Pspill, Pshed)`. -/
def dispatch (Pnl_req Psto_cmax Psto_dmax Pgen_max : ℚ) : ℚ × ℚ × ℚ × ℚ :=
  if 0 ≤ Pnl_req then
    if Psto_dmax ≤ Pnl_req then
      if Pgen_max ≤ Pnl_req - Psto_dmax then
        (Pgen_max, Psto_dmax, 0, Pnl_req - Psto_dmax - Pgen_max)
      else
        (Pnl_req - Psto_dmax, Psto_dmax, 0, 0)
    else
      (0, Pnl_req, 0, 0)
  else
    if Psto_cmax ≤ Pnl_req then
      (0, Pnl_req, 0, 0)
    else
      (0, Psto_cmax, Psto_cmax - Pnl_req, 0)

/-- Modelled from the spec: the storage device of the configuration data
model (components.py, not part of the simulation engine source), exposing
rated energy capacity, min/max allowed energy, charge/discharge rate
limits (fractions of rated energy), a round-trip loss parameter and an
initial state-of-charge fraction. -/
structure Storage where
  energy_rated : ℚ
  energy_min : ℚ
  energy_max : ℚ
  charge_rate_max : ℚ
  discharge_rate_max : ℚ
  loss : ℚ
  SoC_ini : ℚ

/-- Modelled from the spec: the dispatchable generator of the
configuration data model (components.py, not part of the engine source),
exposing a rated power and an affine fuel-consumption curve. -/
structure DispatchableGenerator where
  power_rated : ℚ
  fuel_intercept : ℚ
  fuel_slope : ℚ

/-- Modelled from the spec: the project parameters of the configuration
data model (components.py), exposing the fixed timestep duration. -/
structure Project where
  timestep : ℚ

/-- Modelled from the spec: the Microgrid configuration record
(components.py, not part of the engine source).  The load and each
non-dispatchable production series are length-`K` sequences, embedded as
index functions together with the horizon `K`.  The spec exposes exactly
one dispatchable generator, so the source's attribute paths
`mg.dispatchable` and `mg.dieselgenerator` both denote this single
component. -/
structure Microgrid where
  project : Project
  K : ℕ
  load : ℕ → ℚ
  nondispatchables : List (ℕ → ℚ)
  storage : Storage
  dispatchable : DispatchableGenerator

/-- Elementwise sum of all non-dispatchable sources' production at step
`k` (`renew_potential` in operation.py, line 136). -/
def renew_potential (mg : Microgrid) (k : ℕ) : ℚ :=
  (mg.nondispatchables.map (fun p => p k)).sum

/-- Desired net load at step `k` (`Pnl_request` in operation.py,
line 139). -/
def Pnl_request (mg : Microgrid) (k : ℕ) : ℚ :=
  mg.load k - renew_potential mg k

/-- The per-step storage power bounds computed inside the loop
(operation.py lines 144-145 and 162-165): the pair
`(Psto_cmax, Psto_dmax)` from the rated power limits and the
energy-headroom limits at the current stored energy `Esto`. -/
def stoBounds (sto : Storage) (Esto dt : ℚ) : ℚ × ℚ :=
  let Psto_pmax := sto.discharge_rate_max * sto.energy_rated
  let Psto_pmin := -sto.charge_rate_max * sto.energy_rated
  let Psto_emin := -(sto.energy_max - Esto) / ((1 - sto.loss) * dt)
  let Psto_emax := (Esto - sto.energy_min) / ((1 + sto.loss) * dt)
  (max Psto_emin Psto_pmin, min Psto_emax Psto_pmax)

/-- The running statistics record (`OperationStats` in operation.py,
lines 12-56); all fields default to zero. -/
structure OperationStats where
  served_energy : ℚ := 0
  shed_energy : ℚ := 0
  shed_max : ℚ := 0
  shed_hours : ℚ := 0
  shed_duration_max : ℚ := 0
  shed_rate : ℚ := 0
  gen_hours : ℚ := 0
  gen_fuel : ℚ := 0
  storage_cycles : ℚ := 0
  storage_throughput : ℚ := 0
  spilled_energy : ℚ := 0
  spilled_max : ℚ := 0
  spilled_rate : ℚ := 0
  renew_potential_energy : ℚ := 0
  renew_energy : ℚ := 0
  renew_rate : ℚ := 0
  deriving DecidableEq

/-- The loop-carried variables of the simulation loop (operation.py
lines 147-155): the stored energy `Esto`, the running statistics, the
duration of the current load-shedding event, and the recorder's buffer
of `Esto` samples. -/
structure LoopState where
  Esto : ℚ
  op_st : OperationStats
  shed_duration : ℚ
  rec_Esto : List ℚ
  deriving DecidableEq

/-- Initialization of the loop variables (operation.py lines 147-152):
`Esto = SoC_ini * energy_rated`, zeroed statistics, zero shedding
duration, empty recorder buffer. -/
def initState (mg : Microgrid) : LoopState :=
  { Esto := mg.storage.SoC_ini * mg.storage.energy_rated
    op_st := {}
    shed_duration := 0
    rec_Esto := [] }

/-- The dispatch call made at iteration `k` of the loop from state `s`
(operation.py lines 167-170): `dispatch` applied to the net load request
and the storage bounds computed from the current `Esto`. -/
def stepDispatch (mg : Microgrid) (k : ℕ) (s : LoopState) : ℚ × ℚ × ℚ × ℚ :=
  dispatch (Pnl_request mg k)
    (stoBounds mg.storage s.Esto mg.project.timestep).1
    (stoBounds mg.storage s.Esto mg.project.timestep).2
    mg.dispatchable.power_rated

/-- One iteration `k` of the operation simulation loop (operation.py
lines 159-201): compute the storage bounds, dispatch, record `Esto`,
and fold the dispatched powers into the running statistics. -/
def simStep (mg : Microgrid) (k : ℕ) (s : LoopState) : LoopState :=
  let dt := mg.project.timestep
  let r := stepDispatch mg k s
  let Pgen := r.1
  let Psto := r.2.1
  let Pspill := r.2.2.1
  let Pshed := r.2.2.2
  let st0 := s.op_st
  let st1 := { st0 with
    shed_energy := st0.shed_energy + Pshed * dt
    shed_max := max st0.shed_max Pshed }
  let st2 := if 0 < Pshed then
      { st1 with
        shed_hours := st1.shed_hours + dt
        shed_duration_max := max st1.shed_duration_max (s.shed_duration + dt) }
    else st1
  let shed_duration2 := if 0 < Pshed then s.shed_duration + dt else 0
  let st3 := if 0 < Pgen then
      let fuel_rate := mg.dispatchable.fuel_intercept * mg.dispatchable.power_rated
        + mg.dispatchable.fuel_slope * Pgen
      { st2 with
        gen_hours := st2.gen_hours + dt
        gen_fuel := st2.gen_fuel + fuel_rate * dt }
    else st2
  let st4 := { st3 with
    storage_throughput := st3.storage_throughput + |Psto| * dt }
  let st5 := { st4 with
    spilled_energy := st4.spilled_energy + Pspill * dt
    spilled_max := max st4.spilled_max Pspill }
  { Esto := s.Esto
    op_st := st5
    shed_duration := shed_duration2
    rec_Esto := s.rec_Esto ++ [s.Esto] }

/-- The full simulation loop of `operation` (operation.py lines
159-201): fold `simStep` over the `K` steps from the initial state. -/
def runLoop (mg : Microgrid) : LoopState :=
  (List.range mg.K).foldl (fun s k => simStep mg k s) (initState mg)

/-- The recorder's complete `Esto` sample buffer for a run: the `K`
samples emitted inside the loop plus the final sample emitted after it
(operation.py lines 173 and 204). -/
def recEsto (mg : Microgrid) : List ℚ :=
  (runLoop mg).rec_Esto ++ [(runLoop mg).Esto]

/-- Simulate the operation of Microgrid project `mg` and return the
finalized operation statistics (`operation` in operation.py, lines
127-216; the finalization is lines 206-214, with each derived field
assigned in the source's order). -/
def operation (mg : Microgrid) : OperationStats :=
  let dt := mg.project.timestep
  let s := runLoop mg
  let op_st := s.op_st
  let load_energy := ((List.range mg.K).map mg.load).sum * dt
  let op_st1 := { op_st with served_energy := load_energy - op_st.shed_energy }
  let op_st2 := { op_st1 with shed_rate := op_st1.shed_energy / load_energy }
  let op_st3 := { op_st2 with
    storage_cycles := op_st2.storage_throughput / (2 * mg.storage.energy_max) }
  let op_st4 := { op_st3 with
    spilled_rate := op_st3.spilled_energy / op_st3.renew_potential_energy }
  let op_st5 := { op_st4 with
    renew_potential_energy := ((List.range mg.K).map (renew_potential mg)).sum }
  let op_st6 := { op_st5 with
    renew_energy := op_st5.renew_potential_energy - op_st5.spilled_energy }
  { op_st6 with renew_rate := op_st6.renew_energy / op_st6.served_energy }

/-- A concrete configuration used to evaluate the embedding: one step,
unit timestep, zero load, one renewable source producing 8 kW, a full
10 kWh storage (so its charge headroom is zero and the whole excess is
spilled), and a 10 kW generator with a non-negative fuel curve. -/
def mgA : Microgrid :=
  { project := { timestep := 1 }
    K := 1
    load := fun _ => 0
    nondispatchables := [fun _ => 8]
    storage :=
      { energy_rated := 10
        energy_min := 0
        energy_max := 10
        charge_rate_max := 1/2
        discharge_rate_max := 1/2
        loss := 0
        SoC_ini := 1 }
    dispatchable :=
      { power_rated := 10
        fuel_intercept := 1/2
        fuel_slope := 1/10 } }

/-- The configuration `mgA` with a half-hour timestep, used to expose the
missing `dt` factor in the finalized renewable potential energy. -/
def mgC5 : Microgrid :=
  { mgA with project := { timestep := 1/2 } }

/-- A concrete configuration whose storage has `energy_max = 8` different
from `energy_rated = 10`: one step, unit timestep, a 4 kW load, no
renewables, storage half full, so the step discharges 4 kWh. -/
def mgC6 : Microgrid :=
  { project := { timestep := 1 }
    K := 1
    load := fun _ => 4
    nondispatchables := []
    storage :=
      { energy_rated := 10
        energy_min := 0
        energy_max := 8
        charge_rate_max := 1
        discharge_rate_max := 1
        loss := 0
        SoC_ini := 1/2 }
    dispatchable :=
      { power_rated := 10
        fuel_intercept := 0
        fuel_slope := 1/10 } }

/-- A concrete configuration with an empty storage device (all bounds
zero) and a generator whose fuel-slope coefficient is negative: one
step, unit timestep, a 5 kW load, no renewables, so the generator
serves 5 kW and the fuel accumulator receives a negative increment. -/
def mgB : Microgrid :=
  { project := { timestep := 1 }
    K := 1
    load := fun _ => 5
    nondispatchables := []
    storage :=
      { energy_rated := 0
        energy_min := 0
        energy_max := 0
        charge_rate_max := 0
        discharge_rate_max := 0
        loss := 0
        SoC_ini := 0 }
    dispatchable :=
      { power_rated := 10
        fuel_intercept := 0
        fuel_slope := -1 } }

/-- C1: for every real-valued input with `Psto_cmax ≤ 0 ≤ Psto_dmax` and
`Pgen_max ≥ 0`, `dispatch` returns exactly the four-way split of §4.1:
storage alone when `0 ≤ Pnl_req < Psto_dmax`; storage at its maximum plus
the generator when the residual fits under `Pgen_max`; generator
saturated with the residual shed otherwise; storage absorbing all of a
small excess; storage at its charge bound with the rest spilled for a
large excess. -/
theorem dispatch_four_way_split (Pnl_req Psto_cmax Psto_dmax Pgen_max : ℚ)
    (hc : Psto_cmax ≤ 0) (hd : 0 ≤ Psto_dmax) (hg : 0 ≤ Pgen_max) :
    (0 ≤ Pnl_req → Pnl_req < Psto_dmax →
      dispatch Pnl_req Psto_cmax Psto_dmax Pgen_max = (0, Pnl_req, 0, 0)) ∧
    (0 ≤ Pnl_req → Psto_dmax ≤ Pnl_req → Pnl_req - Psto_dmax < Pgen_max →
      dispatch Pnl_req Psto_cmax Psto_dmax Pgen_max
        = (Pnl_req - Psto_dmax, Psto_dmax, 0, 0)) ∧
    (0 ≤ Pnl_req → Pgen_max ≤ Pnl_req - Psto_dmax →
      dispatch Pnl_req Psto_cmax Psto_dmax Pgen_max
        = (Pgen_max, Psto_dmax, 0, Pnl_req - Psto_dmax - Pgen_max)) ∧
    (Psto_cmax ≤ Pnl_req → Pnl_req < 0 →
      dispatch Pnl_req Psto_cmax Psto_dmax Pgen_max = (0, Pnl_req, 0, 0)) ∧
    (Pnl_req < Psto_cmax →
      dispatch Pnl_req Psto_cmax Psto_dmax Pgen_max
        = (0, Psto_cmax, Psto_cmax - Pnl_req, 0)) := by
  refine ⟨fun h1 h2 => ?_, fun h1 h2 h3 => ?_, fun h1 h2 => ?_,
    fun h1 h2 => ?_, fun h1 => ?_⟩
  · simp only [dispatch, if_pos h1, if_neg (not_le.mpr h2)]
  · simp only [dispatch, if_pos h1, if_pos h2, if_neg (not_le.mpr h3)]
  · have hds : Psto_dmax ≤ Pnl_req := by linarith
    simp only [dispatch, if_pos h1, if_pos hds, if_pos h2]
  · simp only [dispatch, if_neg (not_le.mpr h2), if_pos h1]
  · have hneg : ¬ (0 : ℚ) ≤ Pnl_req := not_le.mpr (lt_of_lt_of_le h1 hc)
    simp only [dispatch, if_neg hneg, if_neg (not_le.mpr h1)]

/-- Witness for C1: the five concrete scenarios of §8 with
`Psto_cmax = -5`, `Psto_dmax = 5`, `Pgen_max = 10`. -/
theorem dispatch_four_way_split_witness :
    dispatch 3 (-5) 5 10 = (0, 3, 0, 0) ∧
    dispatch 12 (-5) 5 10 = (7, 5, 0, 0) ∧
    dispatch 20 (-5) 5 10 = (10, 5, 0, 5) ∧
    dispatch (-3) (-5) 5 10 = (0, -3, 0, 0) ∧
    dispatch (-8) (-5) 5 10 = (0, -5, 3, 0) := by
  refine ⟨?_, ?_, ?_, ?_, ?_⟩
  · have h := (dispatch_four_way_split 3 (-5) 5 10 (by norm_num) (by norm_num)
      (by norm_num)).1 (by norm_num) (by norm_num)
    exact h
  · have h := (dispatch_four_way_split 12 (-5) 5 10 (by norm_num) (by norm_num)
      (by norm_num)).2.1 (by norm_num) (by norm_num) (by norm_num)
    rw [h]; norm_num
  · have h := (dispatch_four_way_split 20 (-5) 5 10 (by norm_num) (by norm_num)
      (by norm_num)).2.2.1 (by norm_num) (by norm_num)
    rw [h]; norm_num
  · have h := (dispatch_four_way_split (-3) (-5) 5 10 (by norm_num) (by norm_num)
      (by norm_num)).2.2.2.1 (by norm_num) (by norm_num)
    exact h
  · have h := (dispatch_four_way_split (-8) (-5) 5 10 (by norm_num) (by norm_num)
      (by norm_num)).2.2.2.2 (by norm_num)
    rw [h]; norm_num

/-- C2 counterexample: at `Pnl_req = 20`, `Psto_cmax = -5`,
`Psto_dmax = 5`, `Pgen_max = 10` the claimed balance
`Pgen + Psto = Pnl_req − Pspill + Pshed` fails: the left side is 15 and
the right side is 25, even though the claim's preconditions hold. -/
theorem dispatch_power_balance_claim_false :
    ((-5 : ℚ) ≤ 0 ∧ (0 : ℚ) ≤ 5 ∧ (0 : ℚ) ≤ 10) ∧
    ¬ ((dispatch 20 (-5) 5 10).1 + (dispatch 20 (-5) 5 10).2.1
        = 20 - (dispatch 20 (-5) 5 10).2.2.1 + (dispatch 20 (-5) 5 10).2.2.2) := by
  norm_num [dispatch]

/-- C2 (amended): for every input with `Psto_cmax ≤ 0 ≤ Psto_dmax` and
`Pgen_max ≥ 0`, the quadruple `(Pgen, Psto, Pspill, Pshed)` returned by
`dispatch` satisfies the power balance
`Pgen + Psto = Pnl_req + Pspill − Pshed` identically (equivalently
`Pgen + Psto + Pshed = Pnl_req + Pspill`): the signs of `Pspill` and
`Pshed` in the claim's equation are swapped. -/
theorem dispatch_power_balance (Pnl_req Psto_cmax Psto_dmax Pgen_max : ℚ)
    (hc : Psto_cmax ≤ 0) (hd : 0 ≤ Psto_dmax) (hg : 0 ≤ Pgen_max) :
    (dispatch Pnl_req Psto_cmax Psto_dmax Pgen_max).1
      + (dispatch Pnl_req Psto_cmax Psto_dmax Pgen_max).2.1
      = Pnl_req + (dispatch Pnl_req Psto_cmax Psto_dmax Pgen_max).2.2.1
        - (dispatch Pnl_req Psto_cmax Psto_dmax Pgen_max).2.2.2 := by
  unfold dispatch
  split_ifs <;> simp <;> ring

/-- Witness for the amended C2 at `Pnl_req = 20`, bounds `(-5, 5, 10)`. -/
theorem dispatch_power_balance_witness :
    (dispatch 20 (-5) 5 10).1 + (dispatch 20 (-5) 5 10).2.1
      = 20 + (dispatch 20 (-5) 5 10).2.2.1 - (dispatch 20 (-5) 5 10).2.2.2 :=
  dispatch_power_balance 20 (-5) 5 10 (by norm_num) (by norm_num) (by norm_num)

theorem simStep_Esto (mg : Microgrid) (k : ℕ) (s : LoopState) :
    (simStep mg k s).Esto = s.Esto := rfl

theorem simStep_rec_Esto (mg : Microgrid) (k : ℕ) (s : LoopState) :
    (simStep mg k s).rec_Esto = s.rec_Esto ++ [s.Esto] := rfl

theorem foldl_simStep_Esto (mg : Microgrid) (l : List ℕ) (s : LoopState) :
    (l.foldl (fun s k => simStep mg k s) s).Esto = s.Esto := by
  induction l generalizing s with
  | nil => rfl
  | cons k l ih => rw [List.foldl_cons, ih, simStep_Esto]

theorem foldl_simStep_rec_Esto (mg : Microgrid) (l : List ℕ) (s : LoopState) :
    (l.foldl (fun s k => simStep mg k s) s).rec_Esto
      = s.rec_Esto ++ List.replicate l.length s.Esto := by
  induction l generalizing s with
  | nil => simp
  | cons k l ih =>
    rw [List.foldl_cons, ih, simStep_rec_Esto, simStep_Esto]
    simp [List.replicate_succ]

theorem dispatch_Pshed_nonneg (a b c d : ℚ) : 0 ≤ (dispatch a b c d).2.2.2 := by
  unfold dispatch
  split_ifs <;> simp_all <;> linarith

theorem dispatch_Pspill_nonneg (a b c d : ℚ) : 0 ≤ (dispatch a b c d).2.2.1 := by
  unfold dispatch
  split_ifs <;> simp_all <;> linarith

theorem dispatch_Pgen_nonneg (a b c d : ℚ) (hg : 0 ≤ d) :
    0 ≤ (dispatch a b c d).1 := by
  unfold dispatch
  split_ifs <;> simp_all <;> linarith

theorem simStep_shed_energy (mg : Microgrid) (k : ℕ) (s : LoopState) :
    (simStep mg k s).op_st.shed_energy
      = s.op_st.shed_energy + (stepDispatch mg k s).2.2.2 * mg.project.timestep := by
  simp only [simStep]
  split_ifs <;> rfl

theorem simStep_shed_max (mg : Microgrid) (k : ℕ) (s : LoopState) :
    (simStep mg k s).op_st.shed_max
      = max s.op_st.shed_max (stepDispatch mg k s).2.2.2 := by
  simp only [simStep]
  split_ifs <;> rfl

theorem simStep_shed_hours (mg : Microgrid) (k : ℕ) (s : LoopState) :
    (simStep mg k s).op_st.shed_hours
      = if 0 < (stepDispatch mg k s).2.2.2 then s.op_st.shed_hours + mg.project.timestep
        else s.op_st.shed_hours := by
  simp only [simStep]
  split_ifs <;> rfl

theorem simStep_shed_duration_max (mg : Microgrid) (k : ℕ) (s : LoopState) :
    (simStep mg k s).op_st.shed_duration_max
      = if 0 < (stepDispatch mg k s).2.2.2 then
          max s.op_st.shed_duration_max (s.shed_duration + mg.project.timestep)
        else s.op_st.shed_duration_max := by
  simp only [simStep]
  split_ifs <;> rfl

theorem simStep_gen_hours (mg : Microgrid) (k : ℕ) (s : LoopState) :
    (simStep mg k s).op_st.gen_hours
      = if 0 < (stepDispatch mg k s).1 then s.op_st.gen_hours + mg.project.timestep
        else s.op_st.gen_hours := by
  simp only [simStep]
  split_ifs <;> rfl

theorem simStep_gen_fuel (mg : Microgrid) (k : ℕ) (s : LoopState) :
    (simStep mg k s).op_st.gen_fuel
      = if 0 < (stepDispatch mg k s).1 then
          s.op_st.gen_fuel
            + (mg.dispatchable.fuel_intercept * mg.dispatchable.power_rated
              + mg.dispatchable.fuel_slope * (stepDispatch mg k s).1)
              * mg.project.timestep
        else s.op_st.gen_fuel := by
  simp only [simStep]
  split_ifs <;> rfl

theorem simStep_storage_throughput (mg : Microgrid) (k : ℕ) (s : LoopState) :
    (simStep mg k s).op_st.storage_throughput
      = s.op_st.storage_throughput + |(stepDispatch mg k s).2.1| * mg.project.timestep := by
  simp only [simStep]
  split_ifs <;> rfl

theorem simStep_spilled_energy (mg : Microgrid) (k : ℕ) (s : LoopState) :
    (simStep mg k s).op_st.spilled_energy
      = s.op_st.spilled_energy + (stepDispatch mg k s).2.2.1 * mg.project.timestep := by
  simp only [simStep]
  split_ifs <;> rfl

theorem simStep_spilled_max (mg : Microgrid) (k : ℕ) (s : LoopState) :
    (simStep mg k s).op_st.spilled_max
      = max s.op_st.spilled_max (stepDispatch mg k s).2.2.1 := by
  simp only [simStep]
  split_ifs <;> rfl

theorem simStep_renew_potential_energy (mg : Microgrid) (k : ℕ) (s : LoopState) :
    (simStep mg k s).op_st.renew_potential_energy
      = s.op_st.renew_potential_energy := by
  simp only [simStep]
  split_ifs <;> rfl

theorem foldl_simStep_renew_potential_energy (mg : Microgrid) (l : List ℕ)
    (s : LoopState) :
    (l.foldl (fun s k => simStep mg k s) s).op_st.renew_potential_energy
      = s.op_st.renew_potential_energy := by
  induction l generalizing s with
  | nil => rfl
  | cons k l ih => rw [List.foldl_cons, ih, simStep_renew_potential_energy]

/-- C3: throughout a whole run, the storage energy state `Esto` is never
reassigned after its initialization to `SoC_ini * energy_rated`: the
state reached before any iteration `k` still carries that constant
value (so every iteration computes its bounds from it), and the `K + 1`
`Esto` samples emitted to the recorder are all equal to it. -/
theorem operation_Esto_never_reassigned (mg : Microgrid) :
    (∀ k, ((List.range k).foldl (fun s j => simStep mg j s) (initState mg)).Esto
        = mg.storage.SoC_ini * mg.storage.energy_rated) ∧
    recEsto mg
      = List.replicate (mg.K + 1) (mg.storage.SoC_ini * mg.storage.energy_rated) := by
  constructor
  · intro k
    rw [foldl_simStep_Esto]
    rfl
  · unfold recEsto runLoop
    rw [foldl_simStep_Esto, foldl_simStep_rec_Esto]
    simp [initState, List.replicate_succ']

/-- C8: under the stated preconditions on the timestep and the storage
parameters, the power bounds computed at every step of the loop satisfy
`Psto_cmax ≤ 0 ≤ Psto_dmax`. -/
theorem stoBounds_sign_every_step (mg : Microgrid)
    (hdt : 0 < mg.project.timestep)
    (hl0 : 0 ≤ mg.storage.loss) (hl1 : mg.storage.loss < 1)
    (hcr : 0 ≤ mg.storage.charge_rate_max)
    (hdr : 0 ≤ mg.storage.discharge_rate_max)
    (her : 0 ≤ mg.storage.energy_rated)
    (hemin : mg.storage.energy_min ≤ mg.storage.SoC_ini * mg.storage.energy_rated)
    (hemax : mg.storage.SoC_ini * mg.storage.energy_rated ≤ mg.storage.energy_max) :
    ∀ k, (stoBounds mg.storage
          ((List.range k).foldl (fun s j => simStep mg j s) (initState mg)).Esto
          mg.project.timestep).1 ≤ 0 ∧
        0 ≤ (stoBounds mg.storage
          ((List.range k).foldl (fun s j => simStep mg j s) (initState mg)).Esto
          mg.project.timestep).2 := by
  intro k
  rw [foldl_simStep_Esto]
  have hE : (initState mg).Esto = mg.storage.SoC_ini * mg.storage.energy_rated := rfl
  rw [hE]
  have h1 : (0:ℚ) < (1 - mg.storage.loss) * mg.project.timestep :=
    mul_pos (by linarith) hdt
  have h2 : (0:ℚ) < (1 + mg.storage.loss) * mg.project.timestep :=
    mul_pos (by linarith) hdt
  constructor
  · simp only [stoBounds]
    apply max_le
    · rw [neg_div]
      exact neg_nonpos.mpr (div_nonneg (by linarith) h1.le)
    · rw [neg_mul]
      exact neg_nonpos.mpr (mul_nonneg hcr her)
  · simp only [stoBounds]
    apply le_min
    · exact div_nonneg (by linarith) h2.le
    · exact mul_nonneg hdr her

/-- Witness for C8: the preconditions hold for the concrete
configuration `mgA`, and at step 0 the bounds have the stated signs. -/
theorem stoBounds_sign_every_step_witness :
    (stoBounds mgA.storage
        ((List.range 0).foldl (fun s j => simStep mgA j s) (initState mgA)).Esto
        mgA.project.timestep).1 ≤ 0 ∧
      0 ≤ (stoBounds mgA.storage
        ((List.range 0).foldl (fun s j => simStep mgA j s) (initState mgA)).Esto
        mgA.project.timestep).2 :=
  stoBounds_sign_every_step mgA (by norm_num [mgA]) (by norm_num [mgA])
    (by norm_num [mgA]) (by norm_num [mgA]) (by norm_num [mgA]) (by norm_num [mgA])
    (by norm_num [mgA]) (by norm_num [mgA]) 0

/-- C7: at every step of the loop where the dispatched generator power
is positive, `gen_hours` increases by exactly `dt` and `gen_fuel` by
exactly `dt * (fuel_intercept * Pgen_rated + fuel_slope * Pgen)`, where
`Pgen_rated` is the rated power of the (single) dispatchable generator
that bounds `Pgen` in the dispatch decision; a step with `Pgen = 0`
leaves both unchanged. -/
theorem simStep_generator_stats (mg : Microgrid) (k : ℕ) (s : LoopState) :
    (0 < (stepDispatch mg k s).1 →
      (simStep mg k s).op_st.gen_hours = s.op_st.gen_hours + mg.project.timestep ∧
      (simStep mg k s).op_st.gen_fuel
        = s.op_st.gen_fuel + mg.project.timestep
            * (mg.dispatchable.fuel_intercept * mg.dispatchable.power_rated
              + mg.dispatchable.fuel_slope * (stepDispatch mg k s).1)) ∧
    ((stepDispatch mg k s).1 = 0 →
      (simStep mg k s).op_st.gen_hours = s.op_st.gen_hours ∧
      (simStep mg k s).op_st.gen_fuel = s.op_st.gen_fuel) := by
  constructor
  · intro h
    rw [simStep_gen_hours, simStep_gen_fuel, if_pos h, if_pos h]
    exact ⟨rfl, by ring⟩
  · intro h
    have hn : ¬ 0 < (stepDispatch mg k s).1 := by
      rw [h]
      exact lt_irrefl 0
    rw [simStep_gen_hours, simStep_gen_fuel, if_neg hn, if_neg hn]
    exact ⟨rfl, rfl⟩

/-- Witness for C7: on `mgB` the first step dispatches `Pgen = 5 > 0`,
and the generator statistics receive exactly the stated increments. -/
theorem simStep_generator_stats_witness :
    (simStep mgB 0 (initState mgB)).op_st.gen_hours
        = (initState mgB).op_st.gen_hours + mgB.project.timestep ∧
    (simStep mgB 0 (initState mgB)).op_st.gen_fuel
        = (initState mgB).op_st.gen_fuel + mgB.project.timestep
            * (mgB.dispatchable.fuel_intercept * mgB.dispatchable.power_rated
              + mgB.dispatchable.fuel_slope * (stepDispatch mgB 0 (initState mgB)).1) :=
  (simStep_generator_stats mgB 0 (initState mgB)).1 (by
    norm_num [stepDispatch, initState, stoBounds, dispatch, Pnl_request,
      renew_potential, mgB])

/-- C4 (refuted by the code): `spilled_rate` is assigned before
`renew_potential_energy` (operation.py lines 211-212), so it divides by
the field's zero-initialized default: for every configuration the
returned `spilled_rate` is `spilled_energy / 0`, and on the concrete
configuration `mgA` (8 kWh spilled out of 8 kWh of renewable potential)
it differs from `spilled_energy` divided by the finalized
`renew_potential_energy`. -/
theorem operation_spilled_rate_uses_default :
    (∀ mg : Microgrid, (operation mg).spilled_rate
        = (runLoop mg).op_st.spilled_energy / 0) ∧
    (operation mgA).spilled_energy = 8 ∧
    (operation mgA).renew_potential_energy = 8 ∧
    (operation mgA).spilled_rate
      ≠ (operation mgA).spilled_energy / (operation mgA).renew_potential_energy := by
  refine ⟨fun mg => ?_, ?_, ?_, ?_⟩
  · simp [operation, runLoop, foldl_simStep_renew_potential_energy, initState]
  · norm_num [operation, runLoop, initState, simStep, stepDispatch, stoBounds,
      dispatch, Pnl_request, renew_potential, mgA, List.range_succ]
  · norm_num [operation, runLoop, initState, simStep, stepDispatch, stoBounds,
      dispatch, Pnl_request, renew_potential, mgA, List.range_succ]
  · norm_num [operation, runLoop, initState, simStep, stepDispatch, stoBounds,
      dispatch, Pnl_request, renew_potential, mgA, List.range_succ]

/-- C5 (refuted by the code): the finalized `renew_potential_energy` is
the plain sum `Σ renew_potential[k]` with no `dt` factor (operation.py
line 212, contrast line 207): for every configuration it equals the
unscaled sum, and on `mgC5` (timestep 1/2, one step of 8 kW renewable
potential) it differs from the dt-scaled sum required by the claim. -/
theorem operation_renew_potential_energy_unscaled :
    (∀ mg : Microgrid, (operation mg).renew_potential_energy
        = ((List.range mg.K).map (renew_potential mg)).sum) ∧
    (operation mgC5).renew_potential_energy = 8 ∧
    ((List.range mgC5.K).map (renew_potential mgC5)).sum * mgC5.project.timestep = 4 ∧
    (operation mgC5).renew_potential_energy
      ≠ ((List.range mgC5.K).map (renew_potential mgC5)).sum
          * mgC5.project.timestep := by
  refine ⟨fun mg => ?_, ?_, ?_, ?_⟩
  · simp [operation]
  · norm_num [operation, runLoop, initState, simStep, stepDispatch, stoBounds,
      dispatch, Pnl_request, renew_potential, mgC5, mgA, List.range_succ]
  · norm_num [Pnl_request, renew_potential, mgC5, mgA, List.range_succ]
  · norm_num [operation, runLoop, initState, simStep, stepDispatch, stoBounds,
      dispatch, Pnl_request, renew_potential, mgC5, mgA, List.range_succ]

/-- C6 counterexample: on `mgC6` (`energy_rated = 10` but
`energy_max = 8`, with a throughput of 4 kWh) the returned
`storage_cycles` is `4 / 16`, not `4 / 20`: the code divides by twice
`energy_max`, not twice the rated energy capacity. -/
theorem operation_storage_cycles_claim_false :
    (operation mgC6).storage_cycles
      ≠ (operation mgC6).storage_throughput / (2 * mgC6.storage.energy_rated) := by
  norm_num [operation, runLoop, initState, simStep, stepDispatch, stoBounds,
    dispatch, Pnl_request, renew_potential, mgC6, List.range_succ]

theorem foldl_simStep_storage_throughput_nonneg (mg : Microgrid)
    (hdt : 0 ≤ mg.project.timestep) (l : List ℕ) (s : LoopState)
    (hs : 0 ≤ s.op_st.storage_throughput) :
    0 ≤ (l.foldl (fun s k => simStep mg k s) s).op_st.storage_throughput := by
  induction l generalizing s with
  | nil => exact hs
  | cons k l ih =>
    rw [List.foldl_cons]
    refine ih _ ?_
    rw [simStep_storage_throughput]
    exact add_nonneg hs (mul_nonneg (abs_nonneg _) hdt)

/-- C6 (amended): for every configuration with a non-negative timestep
and a non-negative `energy_max`, the `storage_cycles` field of the
returned statistics is non-negative and equals `storage_throughput`
divided by twice the storage's maximum allowed energy `energy_max`
(not its rated capacity `energy_rated`), exactly. -/
theorem operation_storage_cycles (mg : Microgrid)
    (hdt : 0 ≤ mg.project.timestep) (hem : 0 ≤ mg.storage.energy_max) :
    0 ≤ (operation mg).storage_cycles ∧
    (operation mg).storage_cycles
      = (operation mg).storage_throughput / (2 * mg.storage.energy_max) := by
  have hth : (operation mg).storage_throughput
      = (runLoop mg).op_st.storage_throughput := by
    simp [operation]
  have hcy : (operation mg).storage_cycles
      = (runLoop mg).op_st.storage_throughput / (2 * mg.storage.energy_max) := by
    simp [operation]
  have hnn : 0 ≤ (runLoop mg).op_st.storage_throughput :=
    foldl_simStep_storage_throughput_nonneg mg hdt (List.range mg.K) (initState mg)
      (le_refl 0)
  constructor
  · rw [hcy]
    exact div_nonneg hnn (by linarith)
  · rw [hcy, hth]

/-- Witness for the amended C6 on the concrete configuration `mgC6`. -/
theorem operation_storage_cycles_witness :
    0 ≤ (operation mgC6).storage_cycles ∧
    (operation mgC6).storage_cycles
      = (operation mgC6).storage_throughput / (2 * mgC6.storage.energy_max) :=
  operation_storage_cycles mgC6 (by norm_num [mgC6]) (by norm_num [mgC6])

/-- C9 counterexample: on `mgB` the claim's preconditions hold
(`dt ≥ 0`, the step's bounds satisfy `Psto_cmax ≤ 0 ≤ Psto_dmax`, and
`Pgen_max ≥ 0`), yet `gen_fuel` strictly decreases across the first
loop iteration, because the fuel-slope coefficient is negative. -/
theorem simStep_monotone_claim_false :
    ((0:ℚ) ≤ mgB.project.timestep ∧
      (stoBounds mgB.storage (initState mgB).Esto mgB.project.timestep).1 ≤ 0 ∧
      0 ≤ (stoBounds mgB.storage (initState mgB).Esto mgB.project.timestep).2 ∧
      0 ≤ mgB.dispatchable.power_rated) ∧
    (simStep mgB 0 (initState mgB)).op_st.gen_fuel
      < (initState mgB).op_st.gen_fuel := by
  norm_num [simStep, stepDispatch, initState, stoBounds, dispatch, Pnl_request,
    renew_potential, mgB]

/-- C9 (amended): with the claim's preconditions strengthened by
non-negative fuel-curve coefficients, every listed accumulator of the
running statistics (`shed_energy`, `spilled_energy`, `shed_hours`,
`gen_hours`, `gen_fuel`, `storage_throughput`, `shed_max`,
`spilled_max`, `shed_duration_max`) is non-decreasing across each loop
iteration. -/
theorem simStep_stats_monotone (mg : Microgrid) (k : ℕ) (s : LoopState)
    (hdt : 0 ≤ mg.project.timestep)
    (hcb : (stoBounds mg.storage s.Esto mg.project.timestep).1 ≤ 0)
    (hdb : 0 ≤ (stoBounds mg.storage s.Esto mg.project.timestep).2)
    (hpr : 0 ≤ mg.dispatchable.power_rated)
    (hfi : 0 ≤ mg.dispatchable.fuel_intercept)
    (hfs : 0 ≤ mg.dispatchable.fuel_slope) :
    s.op_st.shed_energy ≤ (simStep mg k s).op_st.shed_energy ∧
    s.op_st.spilled_energy ≤ (simStep mg k s).op_st.spilled_energy ∧
    s.op_st.shed_hours ≤ (simStep mg k s).op_st.shed_hours ∧
    s.op_st.gen_hours ≤ (simStep mg k s).op_st.gen_hours ∧
    s.op_st.gen_fuel ≤ (simStep mg k s).op_st.gen_fuel ∧
    s.op_st.storage_throughput ≤ (simStep mg k s).op_st.storage_throughput ∧
    s.op_st.shed_max ≤ (simStep mg k s).op_st.shed_max ∧
    s.op_st.spilled_max ≤ (simStep mg k s).op_st.spilled_max ∧
    s.op_st.shed_duration_max ≤ (simStep mg k s).op_st.shed_duration_max := by
  have hPshed : 0 ≤ (stepDispatch mg k s).2.2.2 := by
    unfold stepDispatch
    exact dispatch_Pshed_nonneg _ _ _ _
  have hPspill : 0 ≤ (stepDispatch mg k s).2.2.1 := by
    unfold stepDispatch
    exact dispatch_Pspill_nonneg _ _ _ _
  have hPgen : 0 ≤ (stepDispatch mg k s).1 := by
    unfold stepDispatch
    exact dispatch_Pgen_nonneg _ _ _ _ hpr
  refine ⟨?_, ?_, ?_, ?_, ?_, ?_, ?_, ?_, ?_⟩
  · rw [simStep_shed_energy]
    exact le_add_of_nonneg_right (mul_nonneg hPshed hdt)
  · rw [simStep_spilled_energy]
    exact le_add_of_nonneg_right (mul_nonneg hPspill hdt)
  · rw [simStep_shed_hours]
    split_ifs
    · exact le_add_of_nonneg_right hdt
    · exact le_refl _
  · rw [simStep_gen_hours]
    split_ifs
    · exact le_add_of_nonneg_right hdt
    · exact le_refl _
  · rw [simStep_gen_fuel]
    split_ifs
    · exact le_add_of_nonneg_right
        (mul_nonneg (add_nonneg (mul_nonneg hfi hpr) (mul_nonneg hfs hPgen)) hdt)
    · exact le_refl _
  · rw [simStep_storage_throughput]
    exact le_add_of_nonneg_right (mul_nonneg (abs_nonneg _) hdt)
  · rw [simStep_shed_max]
    exact le_max_left _ _
  · rw [simStep_spilled_max]
    exact le_max_left _ _
  · rw [simStep_shed_duration_max]
    split_ifs
    · exact le_max_left _ _
    · exact le_refl _

/-- Witness for the amended C9 on the concrete configuration `mgA` at
the first loop iteration. -/
theorem simStep_stats_monotone_witness :
    (initState mgA).op_st.shed_energy ≤ (simStep mgA 0 (initState mgA)).op_st.shed_energy ∧
    (initState mgA).op_st.spilled_energy ≤ (simStep mgA 0 (initState mgA)).op_st.spilled_energy ∧
    (initState mgA).op_st.shed_hours ≤ (simStep mgA 0 (initState mgA)).op_st.shed_hours ∧
    (initState mgA).op_st.gen_hours ≤ (simStep mgA 0 (initState mgA)).op_st.gen_hours ∧
    (initState mgA).op_st.gen_fuel ≤ (simStep mgA 0 (initState mgA)).op_st.gen_fuel ∧
    (initState mgA).op_st.storage_throughput
      ≤ (simStep mgA 0 (initState mgA)).op_st.storage_throughput ∧
    (initState mgA).op_st.shed_max ≤ (simStep mgA 0 (initState mgA)).op_st.shed_max ∧
    (initState mgA).op_st.spilled_max ≤ (simStep mgA 0 (initState mgA)).op_st.spilled_max ∧
    (initState mgA).op_st.shed_duration_max
      ≤ (simStep mgA 0 (initState mgA)).op_st.shed_duration_max :=
  simStep_stats_monotone mgA 0 (initState mgA) (by norm_num [mgA])
    (by norm_num [stoBounds, initState, mgA]) (by norm_num [stoBounds, initState, mgA])
    (by norm_num [mgA]) (by norm_num [mgA]) (by norm_num [mgA])

end Microgrids
